import Mathlib

/-!
Shallow embedding of the rust_audio_player repository's audio core
(src/audio/waveform.rs and src/audio/player.rs), with theorems checking the
natural-language specification against it.

Modelling conventions:
* `f32`/`f64` sample values and wall-clock times are modelled as exact
  rationals (`ℚ`); floating-point rounding is abstracted away.  The claims
  under study are about the normalization formulas, orderings and state
  transitions, which are exact statements about those rationals.
* The external symphonia/rodio libraries are modelled by environments that
  record which fallible step succeeds and what data the decoder yields.
* `Instant::now()` is modelled by passing the current time explicitly to
  each operation.
-/

/-- Decoded audio buffer (symphonia's `AudioBufferRef`): one variant per
sample format.  Each variant carries the channel count
(`audio_buffer.spec().channels.count()`), the frame count
(`audio_buffer.frames()`) and the channel data: `chan ch frame` is
`buf.chan(ch)[frame]` (for the 24-bit formats, `.inner()` of that value). -/
inductive AudioBufferRef : Type where
  | U8  (channels frames : Nat) (chan : Nat → Nat → Nat)
  | U16 (channels frames : Nat) (chan : Nat → Nat → Nat)
  | U24 (channels frames : Nat) (chan : Nat → Nat → Nat)
  | U32 (channels frames : Nat) (chan : Nat → Nat → Nat)
  | S8  (channels frames : Nat) (chan : Nat → Nat → Int)
  | S16 (channels frames : Nat) (chan : Nat → Nat → Int)
  | S24 (channels frames : Nat) (chan : Nat → Nat → Int)
  | S32 (channels frames : Nat) (chan : Nat → Nat → Int)
  | F32 (channels frames : Nat) (chan : Nat → Nat → ℚ)
  | F64 (channels frames : Nat) (chan : Nat → Nat → ℚ)

/-- Channel count of a decoded buffer. -/
def AudioBufferRef.channels : AudioBufferRef → Nat
  | .U8 c _ _ => c
  | .U16 c _ _ => c
  | .U24 c _ _ => c
  | .U32 c _ _ => c
  | .S8 c _ _ => c
  | .S16 c _ _ => c
  | .S24 c _ _ => c
  | .S32 c _ _ => c
  | .F32 c _ _ => c
  | .F64 c _ _ => c

/-- Frame count of a decoded buffer. -/
def AudioBufferRef.frames : AudioBufferRef → Nat
  | .U8 _ n _ => n
  | .U16 _ n _ => n
  | .U24 _ n _ => n
  | .U32 _ n _ => n
  | .S8 _ n _ => n
  | .S16 _ n _ => n
  | .S24 _ n _ => n
  | .S32 _ n _ => n
  | .F32 _ n _ => n
  | .F64 _ n _ => n

/-- The loop shared by every arm of `process_audio_buffer` in waveform.rs:
for each frame, sum the mapped per-channel values and push `sum / channels`.
`mapped ch frame` is the body of the inner `for ch` loop of the arm. -/
def framesLoop (channels frames : Nat) (mapped : Nat → Nat → ℚ) : List ℚ :=
  (List.range frames).map fun frame =>
    (((List.range channels).map fun ch => mapped ch frame).sum) / (channels : ℚ)

/-- `WaveformGenerator::process_audio_buffer` (waveform.rs lines 130-232),
arm by arm.  The divisors and offsets are the literal constants of the
source: `128.0`, `32768.0`, `8_388_608`, `2_147_483_648.0` for the unsigned
formats, and `i8::MAX = 127`, `i16::MAX = 32767`, `8_388_608.0`,
`i32::MAX = 2147483647` for the signed ones (note S24 divides by
`8_388_608 = 2^23`, not `2^23 - 1`).  Floats are passed through. -/
def process_audio_buffer : AudioBufferRef → List ℚ
  | .U8 channels frames chan =>
      framesLoop channels frames fun ch frame => ((chan ch frame : ℚ) - 128) / 128
  | .U16 channels frames chan =>
      framesLoop channels frames fun ch frame => ((chan ch frame : ℚ) - 32768) / 32768
  | .U24 channels frames chan =>
      framesLoop channels frames fun ch frame =>
        ((chan ch frame : ℚ) - 8388608) / 8388608
  | .U32 channels frames chan =>
      framesLoop channels frames fun ch frame =>
        ((chan ch frame : ℚ) - 2147483648) / 2147483648
  | .S8 channels frames chan =>
      framesLoop channels frames fun ch frame => (chan ch frame : ℚ) / 127
  | .S16 channels frames chan =>
      framesLoop channels frames fun ch frame => (chan ch frame : ℚ) / 32767
  | .S24 channels frames chan =>
      framesLoop channels frames fun ch frame => (chan ch frame : ℚ) / 8388608
  | .S32 channels frames chan =>
      framesLoop channels frames fun ch frame => (chan ch frame : ℚ) / 2147483647
  | .F32 channels frames chan => framesLoop channels frames chan
  | .F64 channels frames chan => framesLoop channels frames chan

/-- One turn of the packet loop of `load_waveform_streaming`
(waveform.rs lines 106-127): what `next_packet` / `decoder.decode` yield. -/
inductive PacketEvent : Type where
  /-- `next_packet` returned `Err(Error::IoError(_))`: break (end of file). -/
  | ioFailure : PacketEvent
  /-- `next_packet` returned some other error: continue to the next packet. -/
  | formatFailure : PacketEvent
  /-- `next_packet` ok and `decode` returned `Ok(audio_buffer)`. -/
  | decodeOk (buf : AudioBufferRef) : PacketEvent
  /-- `decode` returned `Err(Error::DecodeError(_))`: skip this packet. -/
  | decodeFailure : PacketEvent
  /-- `decode` returned some other error: stop the loop. -/
  | fatalDecodeFailure : PacketEvent

/-- The packet loop of `load_waveform_streaming`: runs the events in order,
collecting the chunks sent on the channel (the receiver is assumed
connected; an exhausted event list models end of stream).  A decoded chunk
is sent only when non-empty. -/
def runPacketLoop : List PacketEvent → List (List ℚ)
  | [] => []
  | PacketEvent.ioFailure :: _ => []
  | PacketEvent.formatFailure :: rest => runPacketLoop rest
  | PacketEvent.decodeFailure :: rest => runPacketLoop rest
  | PacketEvent.fatalDecodeFailure :: _ => []
  | PacketEvent.decodeOk buf :: rest =>
      let chunk := process_audio_buffer buf
      if chunk.isEmpty then runPacketLoop rest
      else chunk :: runPacketLoop rest

/-- Environment of one `load_waveform_streaming` run: which of the fallible
setup steps succeed, the codec parameters' optional sample rate, and the
packet/decode events the external library yields. -/
structure MediaEnv : Type where
  /-- `File::open` succeeds. -/
  fileOpens : Bool
  /-- `get_probe().format(...)` succeeds. -/
  probeOk : Bool
  /-- `format_reader.default_track()` is `Some`. -/
  hasDefaultTrack : Bool
  /-- `codec_params.sample_rate`. -/
  sampleRate : Option Nat
  /-- `get_codecs().make(...)` succeeds. -/
  decoderOk : Bool
  /-- The packet events of the decode loop. -/
  packets : List PacketEvent

/-- `WaveformGenerator::load_waveform_streaming` (waveform.rs lines 60-128):
the list of chunks sent on the channel.  Each failed setup step returns with
nothing sent.  The sample-rate block (lines 98-103) is inert in the source:
its `tx.send(vec![rate as f32])` line is commented out, so a discovered rate
is never sent and the chunks are exactly those of the packet loop. -/
def load_waveform_streaming (env : MediaEnv) : List (List ℚ) :=
  if env.fileOpens = false then []
  else if env.probeOk = false then []
  else if env.hasDefaultTrack = false then []
  else if env.decoderOk = false then []
  else runPacketLoop env.packets

/-- Consumer-side state of `WaveformGenerator` (waveform.rs lines 10-14):
the channel receiver (`some pending` = connected with the listed chunks not
yet drained; `none` = no receiver), the accumulated buffer and the stored
sample rate. -/
structure WaveformGenerator : Type where
  receiver : Option (List (List ℚ))
  buffer : List ℚ
  sample_rate : Nat

/-- `WaveformGenerator::default()` (waveform.rs lines 16-24). -/
def WaveformGenerator.default : WaveformGenerator :=
  { receiver := none, buffer := [], sample_rate := 44100 }

/-- `generate_for` (waveform.rs lines 27-38): clears the buffer and installs
a fresh channel; the spawned producer's sends are modelled by `deliver`. -/
def generate_for (g : WaveformGenerator) : WaveformGenerator :=
  { g with buffer := [], receiver := some [] }

/-- Chunks sent by the producer arriving on the channel: appended to the
pending messages of the receiver (no receiver: the sends are lost). -/
def deliver (g : WaveformGenerator) (msgs : List (List ℚ)) : WaveformGenerator :=
  match g.receiver with
  | none => g
  | some pending => { g with receiver := some (pending ++ msgs) }

/-- `update_buffer` (waveform.rs lines 40-46): `try_iter` drains every
currently pending chunk, each extending the buffer in order; nothing else
of the state is touched. -/
def update_buffer (g : WaveformGenerator) : WaveformGenerator :=
  match g.receiver with
  | none => g
  | some pending => { g with buffer := g.buffer ++ pending.flatten, receiver := some [] }

/-- `set_sample_rate` (waveform.rs lines 48-50). -/
def set_sample_rate (g : WaveformGenerator) (rate : Nat) : WaveformGenerator :=
  { g with sample_rate := rate }

/-- Rust's `f32 as usize` cast on a rational: truncation clamped below at
zero (the source only ever casts products of nonnegative quantities). -/
def ratToUsize (q : ℚ) : Nat := (Int.floor q).toNat

/-- The index pair `(start_idx, end_idx)` computed by `get_visible_waveform`
(waveform.rs lines 234-241): `saturating_sub` is `Nat` subtraction and the
`min` with the buffer length is explicit in the source. -/
def visibleRange (g : WaveformGenerator) (progress_secs window_size_secs : ℚ) :
    Nat × Nat :=
  let samples_played := ratToUsize (progress_secs * (g.sample_rate : ℚ))
  let visible_length_samples := ratToUsize (window_size_secs * (g.sample_rate : ℚ))
  let start_idx := samples_played - visible_length_samples / 2
  let end_idx := min (start_idx + visible_length_samples) g.buffer.length
  (start_idx, end_idx)

/-- `get_visible_waveform` (waveform.rs lines 234-247): the slice
`buffer[start_idx..end_idx]` when `start_idx < end_idx` and the buffer is
non-empty, the empty slice otherwise. -/
def get_visible_waveform (g : WaveformGenerator)
    (progress_secs window_size_secs : ℚ) : List ℚ :=
  let r := visibleRange g progress_secs window_size_secs
  if r.1 < r.2 ∧ g.buffer ≠ [] then (g.buffer.drop r.1).take (r.2 - r.1) else []

/-- Errors `AudioPlayer::play` can return (player.rs lines 33-37): the four
`?` sites in order. -/
inductive PlayError : Type where
  | deviceUnavailable : PlayError
  | sinkCreate : PlayError
  | openFailure : PlayError
  | decodeInit : PlayError

/-- Which fallible steps of one `play` call succeed. -/
structure PlayEnv : Type where
  /-- `OutputStream::try_default()` succeeds. -/
  deviceOk : Bool
  /-- `Sink::try_new(&stream_handle)` succeeds. -/
  sinkOk : Bool
  /-- `File::open(file_path)` succeeds. -/
  fileOk : Bool
  /-- `Decoder::new(BufReader::new(file))` succeeds. -/
  decoderOk : Bool

/-- `AudioPlayer` state (player.rs lines 7-14).  The `_stream` and
`stream_handle` options are modelled by presence Booleans; the sink by
`some paused?` when present (only its pause flag is observable through the
public operations); times are rationals. -/
structure AudioPlayer : Type where
  stream : Bool
  stream_handle : Bool
  sink : Option Bool
  start_time : Option ℚ
  pause_duration : ℚ
  playing_file : Option String

/-- `AudioPlayer::default()` (player.rs lines 16-27). -/
def AudioPlayer.default : AudioPlayer :=
  { stream := false, stream_handle := false, sink := none,
    start_time := none, pause_duration := 0, playing_file := none }

/-- `stop` (player.rs lines 69-79): stops the old sink, then sets every
field to its empty/zero value, so the result is the same state whatever the
input was. -/
def AudioPlayer.stop (_p : AudioPlayer) : AudioPlayer :=
  { stream := false, stream_handle := false, sink := none,
    start_time := none, pause_duration := 0, playing_file := none }

/-- `play` (player.rs lines 30-49): first `self.stop()`, then the four
fallible steps in source order, each `?` returning early with the state
already torn down; on success the fresh session (sink not paused,
`start_time = now`, `pause_duration = 0`). -/
def AudioPlayer.play (p : AudioPlayer) (env : PlayEnv) (file_path : String)
    (now : ℚ) : Except PlayError Unit × AudioPlayer :=
  let p1 := p.stop
  if env.deviceOk = false then (Except.error PlayError.deviceUnavailable, p1)
  else if env.sinkOk = false then (Except.error PlayError.sinkCreate, p1)
  else if env.fileOk = false then (Except.error PlayError.openFailure, p1)
  else if env.decoderOk = false then (Except.error PlayError.decodeInit, p1)
  else (Except.ok (),
    { stream := true, stream_handle := true, sink := some false,
      start_time := some now, pause_duration := 0,
      playing_file := some file_path })

/-- `pause` (player.rs lines 51-59): when a sink exists, pause it, and when
a start instant is present fold `now - start` into `pause_duration` and
clear the start instant. -/
def AudioPlayer.pause (p : AudioPlayer) (now : ℚ) : AudioPlayer :=
  match p.sink with
  | none => p
  | some _ =>
    match p.start_time with
    | some start =>
        { p with sink := some true, start_time := none,
                 pause_duration := p.pause_duration + (now - start) }
    | none => { p with sink := some true }

/-- `resume` (player.rs lines 61-67): when a sink exists, unpause it and set
the start instant to `now` unconditionally. -/
def AudioPlayer.resume (p : AudioPlayer) (now : ℚ) : AudioPlayer :=
  match p.sink with
  | none => p
  | some _ => { p with sink := some false, start_time := some now }

/-- `is_paused` (player.rs lines 81-88). -/
def AudioPlayer.is_paused (p : AudioPlayer) : Bool :=
  match p.sink with
  | none => false
  | some paused => paused

/-- `progress` (player.rs lines 91-104): with a paused sink the accumulated
`pause_duration`; with a running sink and a start instant,
`pause_duration + (now - start)`; otherwise zero. -/
def AudioPlayer.progress (p : AudioPlayer) (now : ℚ) : ℚ :=
  match p.sink with
  | none => 0
  | some paused =>
    if paused then p.pause_duration
    else
      match p.start_time with
      | some start => p.pause_duration + (now - start)
      | none => 0

/-- `current_file` (player.rs lines 106-108). -/
def AudioPlayer.current_file (p : AudioPlayer) : Option String :=
  p.playing_file

/-- Formula of spec section 4.1, written from the spec's words: the
arithmetic mean across channels (as the sum over the channel indices
divided by the channel count). -/
def specChannelMean (channels : Nat) (value : Nat → ℚ) : ℚ :=
  (((List.range channels).map value).sum) / (channels : ℚ)

/-- Formula of spec section 4.1, written from the spec's words: unsigned
N-bit normalization, `(raw - midpoint) / midpoint` with
`midpoint = 2^(N-1)`. -/
def specUnsignedMap (N : Nat) (raw : ℚ) : ℚ :=
  (raw - 2 ^ (N - 1)) / 2 ^ (N - 1)

/-- Formula of spec section 4.1, written from the spec's words: signed
N-bit normalization, `raw / max_positive_value` with
`max_positive_value = 2^(N-1) - 1`. -/
def specSignedMap (N : Nat) (raw : ℚ) : ℚ :=
  raw / (2 ^ (N - 1) - 1)

/-! ## Helper lemmas -/

theorem list_sum_le_of_forall (l : List ℚ) (hi : ℚ) (h : ∀ x ∈ l, x ≤ hi) :
    l.sum ≤ l.length * hi := by
  induction l with
  | nil => simp
  | cons a t ih =>
    simp only [List.sum_cons, List.length_cons]
    have ha := h a (by simp)
    have ht := ih (fun x hx => h x (by simp [hx]))
    push_cast
    nlinarith

theorem le_list_sum_of_forall (l : List ℚ) (lo : ℚ) (h : ∀ x ∈ l, lo ≤ x) :
    l.length * lo ≤ l.sum := by
  induction l with
  | nil => simp
  | cons a t ih =>
    simp only [List.sum_cons, List.length_cons]
    have ha := h a (by simp)
    have ht := ih (fun x hx => h x (by simp [hx]))
    push_cast
    nlinarith

theorem div_in_range (v lo hi d : ℚ) (hd : 0 < d) (h1 : lo * d ≤ v)
    (h2 : v ≤ hi * d) : lo ≤ v / d ∧ v / d ≤ hi :=
  ⟨(le_div_iff₀ hd).mpr h1, (div_le_iff₀ hd).mpr h2⟩

theorem framesLoop_mem_bounds (c n : Nat) (hc : 1 ≤ c) (mapped : Nat → Nat → ℚ)
    (lo hi : ℚ) (h : ∀ ch i, lo ≤ mapped ch i ∧ mapped ch i ≤ hi) :
    ∀ x ∈ framesLoop c n mapped, lo ≤ x ∧ x ≤ hi := by
  intro x hx
  simp only [framesLoop, List.mem_map, List.mem_range] at hx
  obtain ⟨i, -, rfl⟩ := hx
  have hlen : ((List.range c).map fun ch => mapped ch i).length = c := by simp
  have hub : ((List.range c).map fun ch => mapped ch i).sum ≤ (c : ℚ) * hi := by
    have := list_sum_le_of_forall ((List.range c).map fun ch => mapped ch i) hi ?_
    · rw [hlen] at this; exact this
    · intro x hx
      simp only [List.mem_map, List.mem_range] at hx
      obtain ⟨ch, -, rfl⟩ := hx
      exact (h ch i).2
  have hlb : (c : ℚ) * lo ≤ ((List.range c).map fun ch => mapped ch i).sum := by
    have := le_list_sum_of_forall ((List.range c).map fun ch => mapped ch i) lo ?_
    · rw [hlen] at this; exact this
    · intro x hx
      simp only [List.mem_map, List.mem_range] at hx
      obtain ⟨ch, -, rfl⟩ := hx
      exact (h ch i).1
  have hc' : (0 : ℚ) < (c : ℚ) := by
    have : 0 < c := hc
    exact_mod_cast this
  exact div_in_range _ lo hi _ hc' (by linarith) (by linarith)

theorem framesLoop_length (c n : Nat) (mapped : Nat → Nat → ℚ) :
    (framesLoop c n mapped).length = n := by
  simp [framesLoop]

/-! ## Claim theorems -/

/-- C1 (counterexample): the claim that after draining the consumer's stored
sample rate equals the discovered rate is false at a concrete input: a track
whose codec parameters carry sample rate 48000 and whose decoding yields one
chunk, after `generate_for`, the producer run and a drain, leaves the stored
sample rate at 44100, not 48000 (the rate-announcement send is commented out
in the source). -/
theorem rate_never_announced_cex :
    (MediaEnv.mk true true true (some 48000) true
        [PacketEvent.decodeOk (AudioBufferRef.U8 1 1 fun _ _ => 255)]).sampleRate
      = some 48000 ∧
    (update_buffer (deliver (generate_for WaveformGenerator.default)
        (load_waveform_streaming (MediaEnv.mk true true true (some 48000) true
          [PacketEvent.decodeOk (AudioBufferRef.U8 1 1 fun _ _ => 255)])))).sample_rate
      = 44100 ∧
    ¬ (update_buffer (deliver (generate_for WaveformGenerator.default)
        (load_waveform_streaming (MediaEnv.mk true true true (some 48000) true
          [PacketEvent.decodeOk (AudioBufferRef.U8 1 1 fun _ _ => 255)])))).sample_rate
      = 48000 := by
  refine ⟨rfl, rfl, by decide⟩

/-- C1 (amended): the background unit never sends a rate-announcement message
(the send is commented out in the source) and draining never modifies the
stored sample rate, so for every decode environment the consumer's stored
sample rate after the producer run and a drain is still the 44100 default. -/
theorem sample_rate_stays_default (env : MediaEnv) :
    (update_buffer (deliver (generate_for WaveformGenerator.default)
        (load_waveform_streaming env))).sample_rate = 44100 ∧
    (∀ g : WaveformGenerator, (update_buffer g).sample_rate = g.sample_rate) ∧
    (∀ (g : WaveformGenerator) (msgs : List (List ℚ)),
        (deliver g msgs).sample_rate = g.sample_rate) := by
  refine ⟨rfl, ?_, ?_⟩
  · intro g
    cases hg : g.receiver <;> simp [update_buffer, hg]
  · intro g msgs
    cases hg : g.receiver <;> simp [deliver, hg]

/-- C2 (code divergence): the Sample Normalizer divides signed 24-bit samples
by `8388608 = 2^23`, not by the claimed `2^23 - 1 = 8388607`: a one-channel
one-frame S24 buffer of value `v` yields `v / 8388608`, and at `v = 8388607`
this differs from the spec formula `raw / (2^(N-1) - 1)`. -/
theorem s24_divides_by_pow23 (v : Int) :
    process_audio_buffer (AudioBufferRef.S24 1 1 fun _ _ => v) = [(v : ℚ) / 8388608] ∧
    process_audio_buffer (AudioBufferRef.S24 1 1 fun _ _ => 8388607)
      = [(8388607 : ℚ) / 8388608] ∧
    specSignedMap 24 ((8388607 : Int) : ℚ) ≠ (8388607 : ℚ) / 8388608 := by
  refine ⟨?_, ?_, ?_⟩
  · simp [process_audio_buffer, framesLoop, List.range_succ]
  · simp [process_audio_buffer, framesLoop, List.range_succ]
  · norm_num [specSignedMap]

/-- C5: if in the waveform path the file open, the container probe, the
default-track lookup, or the decoder construction fails, the background unit
terminates with no chunk ever sent on the channel. -/
theorem waveform_setup_failure_silent (env : MediaEnv)
    (h : env.fileOpens = false ∨ env.probeOk = false ∨
         env.hasDefaultTrack = false ∨ env.decoderOk = false) :
    load_waveform_streaming env = [] := by
  obtain ⟨fo, po, dt, sr, de, pk⟩ := env
  rcases h with h | h | h | h <;> simp_all [load_waveform_streaming]

/-- C5 witness: a concrete environment whose file open fails sends nothing. -/
theorem waveform_setup_failure_witness :
    (MediaEnv.mk false true true none true
        [PacketEvent.decodeOk (AudioBufferRef.U8 1 1 fun _ _ => 255)]).fileOpens
      = false ∧
    load_waveform_streaming (MediaEnv.mk false true true none true
        [PacketEvent.decodeOk (AudioBufferRef.U8 1 1 fun _ _ => 255)]) = [] :=
  ⟨rfl, waveform_setup_failure_silent _ (Or.inl rfl)⟩

/-- C8: draining appends the pending chunks to the buffer in received order
(prior buffer concatenated with the flattened chunks); splitting the drain
across two calls (messages delivered between them) yields the same final
buffer as draining everything in one call; a drain with zero pending
messages leaves the state unchanged. -/
theorem drain_append_split (g : WaveformGenerator) (pending p1 p2 : List (List ℚ)) :
    (update_buffer (WaveformGenerator.mk (some pending) g.buffer g.sample_rate)).buffer
      = g.buffer ++ pending.flatten ∧
    (update_buffer (deliver (update_buffer (deliver g p1)) p2)).buffer
      = (update_buffer (deliver g (p1 ++ p2))).buffer ∧
    update_buffer (WaveformGenerator.mk (some []) g.buffer g.sample_rate)
      = WaveformGenerator.mk (some []) g.buffer g.sample_rate := by
  refine ⟨rfl, ?_, by simp [update_buffer]⟩
  cases hg : g.receiver with
  | none => simp [deliver, update_buffer, hg]
  | some q => simp [deliver, update_buffer, hg, List.append_assoc]

/-- C10: calling `resume` while a session exists and the sink is running
(not paused) resets the start instant to `now` unconditionally, so every
later `progress` reading equals `pause_duration + (t - now)`: the running
segment between the old start instant `s` and `now` is dropped (the reading
shrinks by exactly `now - s`). -/
theorem resume_running_resets_start (st sh : Bool) (f : Option String)
    (pd s now t : ℚ) :
    AudioPlayer.resume (AudioPlayer.mk st sh (some false) (some s) pd f) now
      = AudioPlayer.mk st sh (some false) (some now) pd f ∧
    AudioPlayer.progress
        (AudioPlayer.resume (AudioPlayer.mk st sh (some false) (some s) pd f) now) t
      = pd + (t - now) ∧
    AudioPlayer.progress (AudioPlayer.mk st sh (some false) (some s) pd f) t
      - AudioPlayer.progress
          (AudioPlayer.resume (AudioPlayer.mk st sh (some false) (some s) pd f) now) t
      = now - s := by
  refine ⟨rfl, rfl, ?_⟩
  simp [AudioPlayer.resume, AudioPlayer.progress]

/-- C3: the reported progress excludes time spent paused.  After a
successful `play` at `t0`: while running, progress is the accumulated time
plus `now - start`; after `pause` at `t0 + a` progress is the accumulated
`a` only; after `resume` at `t0 + a + b` and a further wait `c`, progress is
`a + c`, not `a + b + c`.  The last two conjuncts state the general reading:
running means accumulated plus `now - start`, paused means accumulated
only. -/
theorem progress_excludes_paused_time (t0 a b c : ℚ) (f : String)
    (_ha : 0 ≤ a) (_hb : 0 ≤ b) (_hc : 0 ≤ c) :
    AudioPlayer.progress
        (AudioPlayer.play AudioPlayer.default (PlayEnv.mk true true true true) f t0).2
        (t0 + a) = a ∧
    AudioPlayer.progress
        (AudioPlayer.pause
          (AudioPlayer.play AudioPlayer.default (PlayEnv.mk true true true true) f t0).2
          (t0 + a)) (t0 + a + b) = a ∧
    AudioPlayer.progress
        (AudioPlayer.resume
          (AudioPlayer.pause
            (AudioPlayer.play AudioPlayer.default (PlayEnv.mk true true true true) f t0).2
            (t0 + a)) (t0 + a + b)) (t0 + a + b + c) = a + c ∧
    (∀ (st sh : Bool) (fl : Option String) (acc s t : ℚ),
        AudioPlayer.progress (AudioPlayer.mk st sh (some false) (some s) acc fl) t
          = acc + (t - s)) ∧
    (∀ (st sh : Bool) (fl : Option String) (acc : ℚ) (os : Option ℚ) (t : ℚ),
        AudioPlayer.progress (AudioPlayer.mk st sh (some true) os acc fl) t = acc) := by
  refine ⟨?_, ?_, ?_, ?_, ?_⟩ <;>
    simp [AudioPlayer.play, AudioPlayer.stop, AudioPlayer.pause, AudioPlayer.resume,
      AudioPlayer.progress, AudioPlayer.default]

/-- C3 witness: the pause-excluding scenario at `t0 = 0`, `a = 1`, `b = 2`,
`c = 3` on track name `"track"`. -/
theorem progress_excludes_paused_time_witness :
    AudioPlayer.progress
        (AudioPlayer.play AudioPlayer.default (PlayEnv.mk true true true true) "track" 0).2
        (0 + 1) = 1 ∧
    AudioPlayer.progress
        (AudioPlayer.pause
          (AudioPlayer.play AudioPlayer.default (PlayEnv.mk true true true true) "track" 0).2
          (0 + 1)) (0 + 1 + 2) = 1 ∧
    AudioPlayer.progress
        (AudioPlayer.resume
          (AudioPlayer.pause
            (AudioPlayer.play AudioPlayer.default (PlayEnv.mk true true true true) "track" 0).2
            (0 + 1)) (0 + 1 + 2)) (0 + 1 + 2 + 3) = 1 + 3 ∧
    (∀ (st sh : Bool) (fl : Option String) (acc s t : ℚ),
        AudioPlayer.progress (AudioPlayer.mk st sh (some false) (some s) acc fl) t
          = acc + (t - s)) ∧
    (∀ (st sh : Bool) (fl : Option String) (acc : ℚ) (os : Option ℚ) (t : ℚ),
        AudioPlayer.progress (AudioPlayer.mk st sh (some true) os acc fl) t = acc) :=
  progress_excludes_paused_time 0 1 2 3 "track"
    (by norm_num) (by norm_num) (by norm_num)

/-- C4: `play` first tears down any existing session unconditionally (the
result never depends on the prior state beyond the teardown), and when any
of the four fallible steps fails it returns that error with the controller
in the Stopped state: no sink, no current file, progress always 0 and
`is_paused` false. -/
theorem play_failure_leaves_stopped (p : AudioPlayer) (env : PlayEnv)
    (f : String) (now : ℚ)
    (h : env.deviceOk = false ∨ env.sinkOk = false ∨ env.fileOk = false ∨
         env.decoderOk = false) :
    (∃ e, (AudioPlayer.play p env f now).1 = Except.error e) ∧
    (AudioPlayer.play p env f now).2 = AudioPlayer.stop p ∧
    (AudioPlayer.play p env f now).2.sink = none ∧
    (AudioPlayer.play p env f now).2.playing_file = none ∧
    (∀ t, AudioPlayer.progress (AudioPlayer.play p env f now).2 t = 0) ∧
    AudioPlayer.is_paused (AudioPlayer.play p env f now).2 = false ∧
    (∀ (q : AudioPlayer) (env2 : PlayEnv),
        AudioPlayer.play q env2 f now
          = AudioPlayer.play (AudioPlayer.stop q) env2 f now) := by
  obtain ⟨d, s, fi, de⟩ := env
  cases d <;> cases s <;> cases fi <;> cases de <;>
    simp_all [AudioPlayer.play, AudioPlayer.stop, AudioPlayer.progress,
      AudioPlayer.is_paused]

/-- C4 witness: a failing device on a controller holding a live session. -/
theorem play_failure_leaves_stopped_witness :
    (∃ e, (AudioPlayer.play (AudioPlayer.mk true true (some false) (some 5) 7 (some "old"))
        (PlayEnv.mk false true true true) "new" 9).1 = Except.error e) ∧
    (AudioPlayer.play (AudioPlayer.mk true true (some false) (some 5) 7 (some "old"))
        (PlayEnv.mk false true true true) "new" 9).2
      = AudioPlayer.stop (AudioPlayer.mk true true (some false) (some 5) 7 (some "old")) ∧
    (AudioPlayer.play (AudioPlayer.mk true true (some false) (some 5) 7 (some "old"))
        (PlayEnv.mk false true true true) "new" 9).2.sink = none ∧
    (AudioPlayer.play (AudioPlayer.mk true true (some false) (some 5) 7 (some "old"))
        (PlayEnv.mk false true true true) "new" 9).2.playing_file = none ∧
    (∀ t, AudioPlayer.progress
        (AudioPlayer.play (AudioPlayer.mk true true (some false) (some 5) 7 (some "old"))
          (PlayEnv.mk false true true true) "new" 9).2 t = 0) ∧
    AudioPlayer.is_paused
        (AudioPlayer.play (AudioPlayer.mk true true (some false) (some 5) 7 (some "old"))
          (PlayEnv.mk false true true true) "new" 9).2 = false ∧
    (∀ (q : AudioPlayer) (env2 : PlayEnv),
        AudioPlayer.play q env2 "new" 9
          = AudioPlayer.play (AudioPlayer.stop q) env2 "new" 9) :=
  play_failure_leaves_stopped (AudioPlayer.mk true true (some false) (some 5) 7 (some "old"))
    (PlayEnv.mk false true true true) "new" 9 (Or.inl rfl)

/-- C7: the visible-window accessor's computed bounds always satisfy
`end ≤ N` (and `start`, `end` are naturals, so `0 ≤ start`); when the slice
branch is taken the result is the in-bounds contiguous slice
`buffer[start..end]` of length `end - start`; an empty buffer or a
degenerate range (`start ≥ end`) yields the empty slice; the index
arithmetic saturates, so no input can take the slice out of bounds. -/
theorem visible_window_bounds (g : WaveformGenerator) (ps ws : ℚ) :
    (visibleRange g ps ws).2 ≤ g.buffer.length ∧
    ((visibleRange g ps ws).1 < (visibleRange g ps ws).2 ∧ g.buffer ≠ [] →
        get_visible_waveform g ps ws
          = (g.buffer.drop (visibleRange g ps ws).1).take
              ((visibleRange g ps ws).2 - (visibleRange g ps ws).1) ∧
        (get_visible_waveform g ps ws).length
          = (visibleRange g ps ws).2 - (visibleRange g ps ws).1) ∧
    (g.buffer = [] → get_visible_waveform g ps ws = []) ∧
    (¬ (visibleRange g ps ws).1 < (visibleRange g ps ws).2 →
        get_visible_waveform g ps ws = []) := by
  have hlen : (visibleRange g ps ws).2 ≤ g.buffer.length := by
    simp only [visibleRange]
    exact min_le_right _ _
  refine ⟨hlen, ?_, ?_, ?_⟩
  · intro h
    have heq : get_visible_waveform g ps ws
        = (g.buffer.drop (visibleRange g ps ws).1).take
            ((visibleRange g ps ws).2 - (visibleRange g ps ws).1) := by
      simp only [get_visible_waveform]
      rw [if_pos h]
    refine ⟨heq, ?_⟩
    rw [heq]
    rw [List.length_take, List.length_drop]
    exact min_eq_left (Nat.sub_le_sub_right hlen _)
  · intro h
    simp [get_visible_waveform, h]
  · intro h
    simp [get_visible_waveform, h]

/-- C6: the Sample Normalizer outputs exactly one value per frame; zero
frames yield an empty output; each output is the arithmetic mean across
channels of the per-channel mapped values, where the unsigned N-bit mapping
is the spec's `(raw - 2^(N-1)) / 2^(N-1)` for N = 8, 16, 24, 32 and float
samples pass through unchanged. -/
theorem normalizer_mean_unsigned_float (cn n : Nat) (_hcn : 1 ≤ cn)
    (u8 u16 u24 u32 : Nat → Nat → Nat) (g32 g64 : Nat → Nat → ℚ) :
    (∀ buf : AudioBufferRef, (process_audio_buffer buf).length = buf.frames) ∧
    (∀ buf : AudioBufferRef, buf.frames = 0 → process_audio_buffer buf = []) ∧
    process_audio_buffer (AudioBufferRef.U8 cn n u8)
      = (List.range n).map (fun i =>
          specChannelMean cn fun ch => specUnsignedMap 8 ((u8 ch i : ℚ))) ∧
    process_audio_buffer (AudioBufferRef.U16 cn n u16)
      = (List.range n).map (fun i =>
          specChannelMean cn fun ch => specUnsignedMap 16 ((u16 ch i : ℚ))) ∧
    process_audio_buffer (AudioBufferRef.U24 cn n u24)
      = (List.range n).map (fun i =>
          specChannelMean cn fun ch => specUnsignedMap 24 ((u24 ch i : ℚ))) ∧
    process_audio_buffer (AudioBufferRef.U32 cn n u32)
      = (List.range n).map (fun i =>
          specChannelMean cn fun ch => specUnsignedMap 32 ((u32 ch i : ℚ))) ∧
    process_audio_buffer (AudioBufferRef.F32 cn n g32)
      = (List.range n).map (fun i => specChannelMean cn fun ch => g32 ch i) ∧
    process_audio_buffer (AudioBufferRef.F64 cn n g64)
      = (List.range n).map (fun i => specChannelMean cn fun ch => g64 ch i) := by
  refine ⟨?_, ?_, ?_, ?_, ?_, ?_, ?_, ?_⟩
  · intro buf
    cases buf <;> simp [process_audio_buffer, framesLoop, AudioBufferRef.frames]
  · intro buf h
    cases buf <;> simp_all [process_audio_buffer, framesLoop, AudioBufferRef.frames]
  all_goals
    simp only [process_audio_buffer, framesLoop, specChannelMean, specUnsignedMap]
  all_goals norm_num

/-- C6 witness: the U8 mean/mapping identity at one channel, one frame,
constant raw value 200. -/
theorem normalizer_mean_witness :
    process_audio_buffer (AudioBufferRef.U8 1 1 fun _ _ => 200)
      = (List.range 1).map (fun i =>
          specChannelMean 1 fun ch =>
            specUnsignedMap 8 (((fun (_ _ : Nat) => 200) ch i : ℚ))) :=
  (normalizer_mean_unsigned_float 1 1 (by norm_num)
    (fun _ _ => 200) (fun _ _ => 0) (fun _ _ => 0) (fun _ _ => 0)
    (fun _ _ => 0) (fun _ _ => 0)).2.2.1

/-- C9: for every integer sample encoding with at least one channel and raw
values within the encoding's range, every output of the Sample Normalizer
lies within [-1, 1] for the unsigned formats and within
[-(2^(N-1))/(2^(N-1) - 1), 1] for the signed ones: at most the documented
most-negative-value overshoot below -1 (for S24, whose divisor in the source
is 2^23, the output in fact stays within [-1, 1]). -/
theorem normalizer_output_range (cn n : Nat) (hcn : 1 ≤ cn)
    (u8 u16 u24 u32 : Nat → Nat → Nat) (s8 s16 s24 s32 : Nat → Nat → Int)
    (hu8 : ∀ ch i, u8 ch i ≤ 255)
    (hu16 : ∀ ch i, u16 ch i ≤ 65535)
    (hu24 : ∀ ch i, u24 ch i ≤ 16777215)
    (hu32 : ∀ ch i, u32 ch i ≤ 4294967295)
    (hs8 : ∀ ch i, -128 ≤ s8 ch i ∧ s8 ch i ≤ 127)
    (hs16 : ∀ ch i, -32768 ≤ s16 ch i ∧ s16 ch i ≤ 32767)
    (hs24 : ∀ ch i, -8388608 ≤ s24 ch i ∧ s24 ch i ≤ 8388607)
    (hs32 : ∀ ch i, -2147483648 ≤ s32 ch i ∧ s32 ch i ≤ 2147483647) :
    (∀ x ∈ process_audio_buffer (AudioBufferRef.U8 cn n u8), -1 ≤ x ∧ x ≤ 1) ∧
    (∀ x ∈ process_audio_buffer (AudioBufferRef.U16 cn n u16), -1 ≤ x ∧ x ≤ 1) ∧
    (∀ x ∈ process_audio_buffer (AudioBufferRef.U24 cn n u24), -1 ≤ x ∧ x ≤ 1) ∧
    (∀ x ∈ process_audio_buffer (AudioBufferRef.U32 cn n u32), -1 ≤ x ∧ x ≤ 1) ∧
    (∀ x ∈ process_audio_buffer (AudioBufferRef.S8 cn n s8),
        -(128 / 127 : ℚ) ≤ x ∧ x ≤ 1) ∧
    (∀ x ∈ process_audio_buffer (AudioBufferRef.S16 cn n s16),
        -(32768 / 32767 : ℚ) ≤ x ∧ x ≤ 1) ∧
    (∀ x ∈ process_audio_buffer (AudioBufferRef.S24 cn n s24), -1 ≤ x ∧ x ≤ 1) ∧
    (∀ x ∈ process_audio_buffer (AudioBufferRef.S32 cn n s32),
        -(2147483648 / 2147483647 : ℚ) ≤ x ∧ x ≤ 1) := by
  refine ⟨?_, ?_, ?_, ?_, ?_, ?_, ?_, ?_⟩
  · refine framesLoop_mem_bounds cn n hcn _ _ _ fun ch i => ?_
    have h0 : (0 : ℚ) ≤ (u8 ch i : ℚ) := Nat.cast_nonneg _
    have h1 : (u8 ch i : ℚ) ≤ 255 := by exact_mod_cast hu8 ch i
    exact div_in_range _ _ _ _ (by norm_num) (by linarith) (by linarith)
  · refine framesLoop_mem_bounds cn n hcn _ _ _ fun ch i => ?_
    have h0 : (0 : ℚ) ≤ (u16 ch i : ℚ) := Nat.cast_nonneg _
    have h1 : (u16 ch i : ℚ) ≤ 65535 := by exact_mod_cast hu16 ch i
    exact div_in_range _ _ _ _ (by norm_num) (by linarith) (by linarith)
  · refine framesLoop_mem_bounds cn n hcn _ _ _ fun ch i => ?_
    have h0 : (0 : ℚ) ≤ (u24 ch i : ℚ) := Nat.cast_nonneg _
    have h1 : (u24 ch i : ℚ) ≤ 16777215 := by exact_mod_cast hu24 ch i
    exact div_in_range _ _ _ _ (by norm_num) (by linarith) (by linarith)
  · refine framesLoop_mem_bounds cn n hcn _ _ _ fun ch i => ?_
    have h0 : (0 : ℚ) ≤ (u32 ch i : ℚ) := Nat.cast_nonneg _
    have h1 : (u32 ch i : ℚ) ≤ 4294967295 := by exact_mod_cast hu32 ch i
    exact div_in_range _ _ _ _ (by norm_num) (by linarith) (by linarith)
  · refine framesLoop_mem_bounds cn n hcn _ _ _ fun ch i => ?_
    have h0 : (-128 : ℚ) ≤ (s8 ch i : ℚ) := by exact_mod_cast (hs8 ch i).1
    have h1 : (s8 ch i : ℚ) ≤ 127 := by exact_mod_cast (hs8 ch i).2
    exact div_in_range _ _ _ _ (by norm_num) (by norm_num; linarith) (by linarith)
  · refine framesLoop_mem_bounds cn n hcn _ _ _ fun ch i => ?_
    have h0 : (-32768 : ℚ) ≤ (s16 ch i : ℚ) := by exact_mod_cast (hs16 ch i).1
    have h1 : (s16 ch i : ℚ) ≤ 32767 := by exact_mod_cast (hs16 ch i).2
    exact div_in_range _ _ _ _ (by norm_num) (by norm_num; linarith) (by linarith)
  · refine framesLoop_mem_bounds cn n hcn _ _ _ fun ch i => ?_
    have h0 : (-8388608 : ℚ) ≤ (s24 ch i : ℚ) := by exact_mod_cast (hs24 ch i).1
    have h1 : (s24 ch i : ℚ) ≤ 8388607 := by exact_mod_cast (hs24 ch i).2
    exact div_in_range _ _ _ _ (by norm_num) (by linarith) (by linarith)
  · refine framesLoop_mem_bounds cn n hcn _ _ _ fun ch i => ?_
    have h0 : (-2147483648 : ℚ) ≤ (s32 ch i : ℚ) := by exact_mod_cast (hs32 ch i).1
    have h1 : (s32 ch i : ℚ) ≤ 2147483647 := by exact_mod_cast (hs32 ch i).2
    exact div_in_range _ _ _ _ (by norm_num) (by norm_num; linarith) (by linarith)

/-- C9 witness: the bounds at one channel, one frame, with each encoding at
a constant in-range value (the unsigned formats at their maximum, the signed
ones at their most negative value). -/
theorem normalizer_output_range_witness :
    (∀ x ∈ process_audio_buffer (AudioBufferRef.U8 1 1 fun _ _ => 255),
        -1 ≤ x ∧ x ≤ 1) ∧
    (∀ x ∈ process_audio_buffer (AudioBufferRef.U16 1 1 fun _ _ => 65535),
        -1 ≤ x ∧ x ≤ 1) ∧
    (∀ x ∈ process_audio_buffer (AudioBufferRef.U24 1 1 fun _ _ => 16777215),
        -1 ≤ x ∧ x ≤ 1) ∧
    (∀ x ∈ process_audio_buffer (AudioBufferRef.U32 1 1 fun _ _ => 4294967295),
        -1 ≤ x ∧ x ≤ 1) ∧
    (∀ x ∈ process_audio_buffer (AudioBufferRef.S8 1 1 fun _ _ => -128),
        -(128 / 127 : ℚ) ≤ x ∧ x ≤ 1) ∧
    (∀ x ∈ process_audio_buffer (AudioBufferRef.S16 1 1 fun _ _ => -32768),
        -(32768 / 32767 : ℚ) ≤ x ∧ x ≤ 1) ∧
    (∀ x ∈ process_audio_buffer (AudioBufferRef.S24 1 1 fun _ _ => -8388608),
        -1 ≤ x ∧ x ≤ 1) ∧
    (∀ x ∈ process_audio_buffer (AudioBufferRef.S32 1 1 fun _ _ => -2147483648),
        -(2147483648 / 2147483647 : ℚ) ≤ x ∧ x ≤ 1) :=
  normalizer_output_range 1 1 (by norm_num)
    (fun _ _ => 255) (fun _ _ => 65535) (fun _ _ => 16777215) (fun _ _ => 4294967295)
    (fun _ _ => -128) (fun _ _ => -32768) (fun _ _ => -8388608) (fun _ _ => -2147483648)
    (fun _ _ => by norm_num) (fun _ _ => by norm_num) (fun _ _ => by norm_num)
    (fun _ _ => by norm_num) (fun _ _ => by norm_num) (fun _ _ => by norm_num)
    (fun _ _ => by norm_num) (fun _ _ => by norm_num)
